import Mathlib

/-!
Shallow embedding of the quinn HTTP/3 client request pipeline
(`quinn-h3/src/client.rs`) and of the rustls-based crypto session
(`quinn-proto/src/crypto/rustls.rs`), with theorems settling the
specification claims about them.

Conventions:
* Stateful Rust code becomes explicit state passing; a `poll` of a future
  becomes a function of the state together with the results the external
  collaborators (the QUIC frame stream, the QPACK header decoder) would
  hand back on this poll.
* Rust panics (`unreachable!`, `Option::unwrap`, `expect`) are modelled
  explicitly (a dedicated `panic` outcome, or `Option`-valued results),
  never hidden behind a default value.
* Collaborators whose code is not part of this repository snapshot are
  modelled as oracles (plain data fields holding the answer they would
  give); collaborators that are part of the repository but outside the
  snapshot are modelled from the spec and marked as such.
-/

namespace H3Client

/-- HTTP/3 application-level stream reset codes used by the client pipeline
(`proto::ErrorCode` in the source; values per the HTTP/3 draft). -/
inductive ErrorCode
  | REQUEST_CANCELLED
  | FRAME_UNEXPECTED
  | NO_ERROR
  deriving DecidableEq, Repr

/-- The `crate::Error` kinds reachable from `RecvResponse::poll` and
`Connection::send_request`: `Error::internal`, `Error::peer`, and errors
propagated from the frame layer or the header decoder (carried opaquely). -/
inductive Error
  | internal (msg : String)
  | peer (msg : String)
  | frameError (e : Nat)
  | headerError (e : Nat)
  deriving DecidableEq, Repr

/-- An encoded QPACK header block as carried by a `HEADERS` frame
(`HeadersFrame` in the source); opaque to `client.rs`, identified by a tag. -/
structure HeadersFrame where
  block : Nat
  deriving DecidableEq, Repr

/-- The frames the decoder can hand to the client, mirroring the `match` in
`RecvResponse::poll`: `Reserved` (grease, skipped), `Headers`, and the
catch-all arm (`Data` and every other frame type fall into `_ =>`). -/
inductive HttpFrame
  | reserved
  | headers (h : HeadersFrame)
  | data (payload : List Nat)
  | other (ty : Nat)
  deriving DecidableEq, Repr

/-- Frames matched by the `_ =>` arm of the `Receiving` state: everything
except `Reserved` and `Headers`. -/
def HttpFrame.isCatchAll : HttpFrame → Bool
  | .reserved => false
  | .headers _ => false
  | .data _ => true
  | .other _ => true

/-- The receive half of the request stream wrapped in a frame decoder
(`FrameStream`); opaque to `client.rs`, identified by a tag so that
ownership transfers can be traced. -/
structure FrameStream where
  id : Nat
  deriving DecidableEq, Repr

/-- One result of `FrameStream::poll_next`
(`Poll<Option<Result<HttpFrame, _>>>`): pending, end of stream (`None`),
a frame-layer error, or a decoded frame. -/
inductive StreamPoll
  | pending
  | endOfStream
  | failure (e : Nat)
  | frame (f : HttpFrame)
  deriving DecidableEq, Repr

/-- A decoded header list, as produced by the QPACK `DecodeHeaders` future
(`proto::headers::Header`); opaque to `client.rs` except through
`into_response_parts`, modelled by the `parts` oracle field: `none` means
`into_response_parts` fails, `some (status, fields)` means it succeeds. -/
structure Header where
  parts : Option (Nat × List (String × String))
  deriving DecidableEq, Repr

/-- One result of polling the `DecodeHeaders` future. -/
inductive DecodePoll
  | pending
  | ok (h : Header)
  | failure (e : Nat)
  deriving DecidableEq, Repr

/-- The in-flight header decode (`DecodeHeaders`), tagged by the frame that
started it. -/
structure DecodeHeaders where
  frame : HeadersFrame
  deriving DecidableEq, Repr

/-- `RecvResponseState` from the source: `Receiving(FrameStream)`,
`Decoding(DecodeHeaders)`, `Finished`. -/
inductive RecvResponseState
  | Receiving (recv : FrameStream)
  | Decoding (decode : DecodeHeaders)
  | Finished
  deriving DecidableEq, Repr

/-- The `RecvResponse` future's own state: the state machine plus the side
slot `recv: Option<FrameStream>` that parks the stream while decoding.
The `conn` and `stream_id` fields of the source only feed the collaborators
and are omitted. -/
structure RecvResponse where
  state : RecvResponseState
  recv : Option FrameStream
  deriving DecidableEq, Repr

/-- `RecvResponse::new`: starts in `Receiving` with an empty side slot. -/
def RecvResponse.new (recv : FrameStream) : RecvResponse :=
  { state := .Receiving recv, recv := none }

/-- A headers-only HTTP response (`Response<()>`). -/
structure Response where
  status : Nat
  version_is_h3 : Bool
  fields : List (String × String)
  deriving DecidableEq, Repr

/-- The body reader handed out on successful resolution; owns the frame
stream. -/
structure BodyReader where
  recv : FrameStream
  finish_request : Bool
  deriving DecidableEq, Repr

/-- `build_response`: splits the decoded header into status and fields and
builds an HTTP/3 response. `into_response_parts` is not in the snapshot; its
outcome is the `parts` oracle of `Header`. -/
def build_response (header : Header) : Except Error Response :=
  match header.parts with
  | none => .error (.headerError 0)
  | some (status, fields) => .ok { status := status, version_is_h3 := true, fields := fields }

/-- The observable outcome of one call to `RecvResponse::poll`:
pending, resolution with a response and body reader, an error, or a Rust
panic (`unreachable!` or a failed `unwrap`). -/
inductive PollOut
  | pending
  | resolved (r : Response) (b : BodyReader)
  | failed (e : Error)
  | panic
  deriving DecidableEq, Repr

/-- The full result of one call to `RecvResponse::poll`: the state left
behind, the outcome, and the stream resets issued during the call. -/
structure PollResult where
  st : RecvResponse
  out : PollOut
  resets : List (Nat × ErrorCode)
  deriving DecidableEq, Repr

/-- `RecvResponse::poll`. `evs` is the sequence of results successive
`poll_next` calls on the frame stream yield during this poll (the stream is
pending once `evs` is exhausted); `dec` is what polling the header decoder
yields. Mirrors the `loop` of the source: `Finished` fails immediately;
`Receiving` pulls frames, skipping `Reserved`, moving to `Decoding` on
`Headers` (parking the stream in the side slot via `mem::replace`), and
resetting with `FRAME_UNEXPECTED` on anything else; `Decoding` polls the
decoder, and on success takes the parked stream (`unwrap`) for the
`BodyReader` and finishes. -/
def RecvResponse.poll (st : RecvResponse) (evs : List StreamPoll) (dec : DecodePoll) :
    PollResult :=
  match st.state with
  | .Finished =>
      ⟨st, .failed (.internal "recv response polled after finish"), []⟩
  | .Receiving fs =>
      match evs with
      | [] => ⟨st, .pending, []⟩
      | e :: rest =>
          match e with
          | .pending => ⟨st, .pending, []⟩
          | .endOfStream => ⟨st, .failed (.peer "received an empty response"), []⟩
          | .failure er => ⟨st, .failed (.frameError er), []⟩
          | .frame .reserved => RecvResponse.poll st rest dec
          | .frame (.headers h) =>
              RecvResponse.poll { state := .Decoding ⟨h⟩, recv := some fs } rest dec
          | .frame (.data _) =>
              ⟨{ st with state := .Finished },
                .failed (.peer "first frame is not headers"),
                [(fs.id, .FRAME_UNEXPECTED)]⟩
          | .frame (.other _) =>
              ⟨{ st with state := .Finished },
                .failed (.peer "first frame is not headers"),
                [(fs.id, .FRAME_UNEXPECTED)]⟩
  | .Decoding _ =>
      match dec with
      | .pending => ⟨st, .pending, []⟩
      | .failure e => ⟨st, .failed (.headerError e), []⟩
      | .ok hdr =>
          match build_response hdr with
          | .error e => ⟨st, .failed e, []⟩
          | .ok r =>
              match st.recv with
              | none => ⟨{ st with state := .Finished }, .panic, []⟩
              | some fs =>
                  ⟨{ state := .Finished, recv := none },
                    .resolved r { recv := fs, finish_request := true }, []⟩

/-- `RecvResponse::cancel`: consuming; resets with `REQUEST_CANCELLED` iff
still in `Receiving`. Returns the resets issued. -/
def RecvResponse.cancel (st : RecvResponse) : List (Nat × ErrorCode) :=
  match st.state with
  | .Receiving fs => [(fs.id, .REQUEST_CANCELLED)]
  | _ => []

/-- The structural invariant of `RecvResponse`: the side slot `recv` is
`none` while `Receiving` (the stream lives inside the variant), `some`
while `Decoding` (the stream is parked), and `none` again once
`Finished` (the stream has been handed off or reset). -/
def RecvResponse.WF (r : RecvResponse) : Prop :=
  match r.state with
  | .Receiving _ => r.recv = none
  | .Decoding _ => r.recv.isSome = true
  | .Finished => r.recv = none

instance (r : RecvResponse) : Decidable r.WF := by
  unfold RecvResponse.WF
  rcases r with ⟨state, rcv⟩
  cases state <;> exact inferInstanceAs (Decidable _)

/-- The stream owned by the state-machine variant, if any. -/
def RecvResponseState.owner : RecvResponseState → List Nat
  | .Receiving fs => [fs.id]
  | _ => []

/-- All owners of the receive half inside a `RecvResponse`: the variant plus
the side slot. -/
def RecvResponse.owners (r : RecvResponse) : List Nat :=
  r.state.owner ++ (match r.recv with | some fs => [fs.id] | none => [])

/-- The stream carried away by a poll outcome (inside the `BodyReader` on
resolution). -/
def PollOut.owner : PollOut → List Nat
  | .resolved _ b => [b.recv.id]
  | _ => []

/-- A request body (`Body`): a single buffer or nothing. These are the two
variants `send_request` matches on. -/
inductive Body
  | buf (payload : List Nat)
  | noBody
  deriving DecidableEq, Repr

/-- The parts of a request header (`Header::request(method, uri, headers)`). -/
structure RequestParts where
  method : String
  uri : String
  fields : List (String × String)
  deriving DecidableEq, Repr

/-- A frame written onto the request stream's send half. -/
inductive WireFrame
  | headers (h : RequestParts)
  | data (payload : List Nat)
  deriving DecidableEq, Repr

/-- The fallible collaborators `send_request` awaits, as oracles:
whether `open_bi` grants a stream, whether `SendHeaders` completes, and
whether the `DataFrame` write completes. -/
structure SendEnv where
  open_bi_ok : Bool
  send_headers_ok : Bool
  write_data_ok : Bool
  deriving DecidableEq, Repr

/-- `Connection::send_request`, as the list of frames written to the fresh
request stream, paired with whether the call succeeded. `SendHeaders` and
`WriteFrame` are outside the snapshot; modelled from the spec: `SendHeaders`
serializes the header parts into a single `HEADERS` frame, `WriteFrame`
writes one `DATA` frame, and a failed await contributes no complete frame.
The order is the source's: headers first, then (for `Body::Buf` only) the
data frame. -/
def send_request (env : SendEnv) (req : RequestParts) (body : Body) :
    List WireFrame × Bool :=
  if !env.open_bi_ok then ([], false)
  else if !env.send_headers_ok then ([], false)
  else
    match body with
    | .buf payload =>
        if env.write_data_ok then ([.headers req, .data payload], true)
        else ([.headers req], false)
    | .noBody => ([.headers req], true)

/-- Modelled from the spec: the HTTP/3 ALPN identifier (`crate::ALPN`,
defined outside the snapshot) — "the HTTP/3 over QUIC identifier (single
byte-string constant)". Its exact bytes are irrelevant to the claims. -/
def ALPN : String := "h3-24"

/-- A built `quinn::ClientConfig` (quinn is outside the snapshot): the parts
the claims observe are the ALPN protocol list and the trust roots. -/
structure ClientConfig where
  alpn_protocols : List String
  roots : List Nat
  deriving DecidableEq, Repr

/-- `quinn::ClientConfigBuilder` (outside the snapshot), same observable
parts. -/
structure ClientConfigBuilder where
  alpn_protocols : List String
  roots : List Nat
  deriving DecidableEq, Repr

/-- `quinn::ClientConfigBuilder::default()`. -/
def ClientConfigBuilder.default : ClientConfigBuilder := ⟨[], []⟩

/-- Modelled from the spec: `quinn::ClientConfigBuilder::protocols` replaces
the ALPN protocol list with the given one. -/
def ClientConfigBuilder.protocols (b : ClientConfigBuilder) (ps : List String) :
    ClientConfigBuilder :=
  { b with alpn_protocols := ps }

/-- `quinn::ClientConfigBuilder::add_certificate_authority` (outside the
snapshot): appends a trust root; the parse-failure path is irrelevant to
the claims. -/
def ClientConfigBuilder.add_certificate_authority (b : ClientConfigBuilder)
    (cert : Nat) : ClientConfigBuilder :=
  { b with roots := b.roots ++ [cert] }

/-- `quinn::ClientConfigBuilder::build`. -/
def ClientConfigBuilder.build (b : ClientConfigBuilder) : ClientConfig :=
  ⟨b.alpn_protocols, b.roots⟩

/-- HTTP/3 `Settings`; opaque to the claims. -/
structure Settings where
  raw : Nat
  deriving DecidableEq, Repr

/-- `Settings::default()`. -/
def Settings.default : Settings := ⟨0⟩

/-- The h3 client `Builder`: HTTP/3 settings plus a quic client config
builder. -/
structure Builder where
  settings : Settings
  client_config : ClientConfigBuilder
  deriving DecidableEq, Repr

/-- `Builder::default()`: starts from the default quic config and forces the
ALPN protocol list to `[ALPN]`. -/
def Builder.default : Builder :=
  { client_config := ClientConfigBuilder.default.protocols [ALPN],
    settings := Settings.default }

/-- `Builder::with_quic_config`: takes a caller-supplied quic config builder
and forces its ALPN protocol list to `[ALPN]`. -/
def Builder.with_quic_config (client_config : ClientConfigBuilder) : Builder :=
  { client_config := client_config.protocols [ALPN],
    settings := Settings.default }

/-- `Builder::settings` (named `set_settings` here because the field keeps
the source name): replaces the HTTP/3 settings, leaving the quic config
untouched. -/
def Builder.set_settings (b : Builder) (s : Settings) : Builder :=
  { b with settings := s }

/-- `Builder::add_certificate_authority`: adds a trust root to the quic
config, leaving its protocols untouched. -/
def Builder.add_certificate_authority (b : Builder) (cert : Nat) : Builder :=
  { b with client_config := b.client_config.add_certificate_authority cert }

/-- A `quinn::Endpoint` as the claims observe it: the default client config
dials fall back to. -/
structure Endpoint where
  default_client_config : ClientConfig
  deriving DecidableEq, Repr

/-- The h3 `Client`: an endpoint plus the HTTP/3 settings. -/
structure Client where
  endpoint : Endpoint
  settings : Settings
  deriving DecidableEq, Repr

/-- `Builder::endpoint`: reuses a caller-supplied endpoint. -/
def Builder.endpoint (b : Builder) (endpoint : Endpoint) : Client :=
  { endpoint := endpoint, settings := b.settings }

/-- `Builder::build`: builds an endpoint whose default client config is the
built quic config, and a client over it. -/
def Builder.build (b : Builder) : Endpoint × Client :=
  let ep : Endpoint := { default_client_config := b.client_config.build }
  (ep, { endpoint := ep, settings := b.settings })

/-- A dial in flight (`Connecting`): the claims observe the client config
the dial uses (address and server name are irrelevant). -/
structure Connecting where
  settings : Settings
  config : ClientConfig
  deriving DecidableEq, Repr

/-- `Client::connect`; modelled from the spec where quinn is involved:
`quinn::Endpoint::connect` dials with the endpoint's default client
config. -/
def Client.connect (c : Client) : Connecting :=
  { settings := c.settings, config := c.endpoint.default_client_config }

/-- `Client::connect_with`: dials with the caller-supplied client config
(`quinn::Endpoint::connect_with` uses exactly the config it is given;
modelled from the spec for the quinn part). -/
def Client.connect_with (c : Client) (client_config : ClientConfig) : Connecting :=
  { settings := c.settings, config := client_config }

end H3Client

namespace RustlsCrypto

/-- Connection side (`quinn_proto::Side`). -/
inductive Side
  | Client
  | Server
  deriving DecidableEq, Repr

/-- `rustls::internal::msgs::enums::HashAlgorithm` (the variants `match`ed
in `update_secrets`, plus a catch-all for the rest of the enum). -/
inductive HashAlgorithm
  | SHA256
  | SHA384
  | SHA512
  | other (tag : Nat)
  deriving DecidableEq, Repr

/-- The ring HKDF algorithm chosen from the hash. -/
inductive HkdfAlgorithm
  | HKDF_SHA256
  | HKDF_SHA384
  | HKDF_SHA512
  deriving DecidableEq, Repr

/-- Symbolic HKDF pseudo-random keys: an initial secret, or the result of an
`hkdf_expand`. The primitive lives in `crypto/ring.rs`, outside the
snapshot; it is modelled as a free term constructor, so distinct
derivations stay distinct and equal derivations are equal. -/
inductive Prk
  | secret (tag : Nat)
  | expanded (parent : Prk) (label : String) (alg : HkdfAlgorithm)
  deriving DecidableEq, Repr

/-- `hkdf_expand` (crypto/ring.rs, outside the snapshot): HKDF-Expand-Label
of a secret, kept symbolic. -/
def hkdf_expand (prk : Prk) (label : String) (alg : HkdfAlgorithm) : Prk :=
  .expanded prk label alg

/-- The AEAD algorithm of a suite; opaque to the claims. -/
structure AeadAlgorithm where
  tag : Nat
  deriving DecidableEq, Repr

/-- A negotiated cipher suite, as `update_keys`/`early_crypto` consume it:
`get_aead_alg()` and `.hash`. -/
structure CipherSuite where
  aead : AeadAlgorithm
  hash : HashAlgorithm
  deriving DecidableEq, Repr

/-- `rustls::quic::Secrets`: the client and server traffic secrets. -/
structure Secrets where
  client : Prk
  server : Prk
  deriving DecidableEq, Repr

/-- The packet-protection key pair (`Crypto` from crypto/ring.rs, outside
the snapshot): an AEAD algorithm plus the local and remote traffic secrets
(the fields `update_keys` reads). -/
structure Crypto where
  side : Side
  alg : AeadAlgorithm
  local_secret : Prk
  remote_secret : Prk
  deriving DecidableEq, Repr

/-- Modelled from the spec: `Crypto::new(side, alg, client_secret,
server_secret)` (crypto/ring.rs, outside the snapshot). Per the spec's
direction mapping, "a client's `local` is the TLS 'client' secret, a
server's `local` is the TLS 'server' secret". -/
def Crypto.new (side : Side) (alg : AeadAlgorithm)
    (client_secret server_secret : Prk) : Crypto :=
  match side with
  | .Client =>
      { side := side, alg := alg,
        local_secret := client_secret, remote_secret := server_secret }
  | .Server =>
      { side := side, alg := alg,
        local_secret := server_secret, remote_secret := client_secret }

/-- The oracle view of a `rustls` engine (rustls is an external library):
what `read_hs`, `get_alert`, `get_early_secret` and
`get_negotiated_ciphersuite` would answer. `read_hs_result = some msg`
means `read_hs` fails with Display string `msg`. -/
structure RustlsState where
  read_hs_result : Option String
  alert : Option Nat
  early_secret : Option Prk
  suite : Option CipherSuite
  deriving DecidableEq, Repr

/-- `TlsSession`: a client or a server rustls session. -/
inductive TlsSession
  | Client (s : RustlsState)
  | Server (s : RustlsState)
  deriving DecidableEq, Repr

/-- `TlsSession::side`. -/
def TlsSession.side : TlsSession → Side
  | .Client _ => .Client
  | .Server _ => .Server

/-- The `Deref` to the underlying rustls session, common to both
variants. -/
def TlsSession.rustls : TlsSession → RustlsState
  | .Client s => s
  | .Server s => s

/-- `TransportErrorCode`: the `crypto(u8)` space and `PROTOCOL_VIOLATION`
(the two codes `read_handshake` produces; the full enum lives outside the
snapshot). -/
inductive TransportErrorCode
  | crypto (code : Nat)
  | PROTOCOL_VIOLATION
  deriving DecidableEq, Repr

/-- `TransportError`: code, offending frame type, reason string. -/
structure TransportError where
  code : TransportErrorCode
  frame : Option Nat
  reason : String
  deriving DecidableEq, Repr

/-- `TransportError::PROTOCOL_VIOLATION(reason)` (constructor-style helper
defined outside the snapshot; modelled from the spec as the
protocol-violation code carrying the reason). -/
def TransportError.protocolViolation (reason : String) : TransportError :=
  { code := .PROTOCOL_VIOLATION, frame := none, reason := reason }

/-- `TlsSession::read_handshake`: on an engine failure, maps to a
`crypto(alert_u8)` transport error when the engine holds an alert
(`get_u8` reduces the alert to a byte), and to
`PROTOCOL_VIOLATION("TLS error: " ++ msg)` otherwise. -/
def read_handshake (s : TlsSession) : Except TransportError Unit :=
  match s.rustls.read_hs_result with
  | none => .ok ()
  | some msg =>
      .error (match s.rustls.alert with
        | some alert =>
            { code := .crypto (alert % 256), frame := none, reason := msg }
        | none => TransportError.protocolViolation ("TLS error: " ++ msg))

/-- Outcome of a call that may hit a Rust panic (`unwrap`/`expect`). -/
inductive PanicOr (α : Type)
  | panicked
  | ok (a : α)
  deriving DecidableEq, Repr

/-- `TlsSession::early_crypto`: `None` when no early secret is cached;
otherwise builds keys from the one early secret used for both directions
(the `unwrap` of the negotiated suite panics if no suite is known). -/
def early_crypto (s : TlsSession) : PanicOr (Option Crypto) :=
  match s.rustls.early_secret with
  | none => .ok none
  | some secret =>
      match s.rustls.suite with
      | none => .panicked
      | some suite =>
          .ok (some (Crypto.new s.side suite.aead secret secret))

/-- The HKDF algorithm `update_secrets` selects for a hash; `none` models
the `panic!` on an unknown hash. -/
def hkdfAlgFor : HashAlgorithm → Option HkdfAlgorithm
  | .SHA256 => some .HKDF_SHA256
  | .SHA384 => some .HKDF_SHA384
  | .SHA512 => some .HKDF_SHA512
  | .other _ => none

/-- `update_secrets`: HKDF-expands both traffic secrets with the label
`b"quic ku"` under the algorithm matching the hash. -/
def update_secrets (hash : HashAlgorithm) (client server : Prk) :
    Option Secrets :=
  match hkdfAlgFor hash with
  | none => none
  | some alg =>
      some { client := hkdf_expand client "quic ku" alg,
             server := hkdf_expand server "quic ku" alg }

/-- `TlsSession::update_keys`: reads the (client, server) secrets out of the
current keys according to the side, updates both, and rebuilds a `Crypto`
for the same side. `none` models the `expect` on a missing suite or the
`panic!` on a hash outside the `match`. -/
def update_keys (s : TlsSession) (keys : Crypto) : Option Crypto :=
  match s.rustls.suite with
  | none => none
  | some suite =>
      let pair :=
        match s.side with
        | .Client => (keys.local_secret, keys.remote_secret)
        | .Server => (keys.remote_secret, keys.local_secret)
      match update_secrets suite.hash pair.1 pair.2 with
      | none => none
      | some secrets =>
          some (Crypto.new s.side suite.aead secrets.client secrets.server)

end RustlsCrypto

namespace H3Client

/-- Helper: a poll in `Finished` changes nothing and fails with the internal
error, whatever the collaborators would have answered. -/
theorem poll_in_finished (rcv : Option FrameStream) (evs : List StreamPoll)
    (dec : DecodePoll) :
    RecvResponse.poll ⟨.Finished, rcv⟩ evs dec =
      ⟨⟨.Finished, rcv⟩, .failed (.internal "recv response polled after finish"), []⟩ := by
  cases evs <;> simp [RecvResponse.poll]

/-- Helper: any poll that resolves with a response leaves the machine in
`Finished` with an empty side slot. -/
theorem poll_resolved_is_finished (evs : List StreamPoll) :
    ∀ (st : RecvResponse) (dec : DecodePoll) (r : Response) (b : BodyReader),
      (RecvResponse.poll st evs dec).out = .resolved r b →
      (RecvResponse.poll st evs dec).st.state = .Finished := by
  induction evs with
  | nil =>
      intro st dec r b h
      rcases st with ⟨state, rcv⟩
      cases state with
      | Receiving fs => simp [RecvResponse.poll] at h
      | Finished => simp [RecvResponse.poll] at h
      | Decoding d =>
          cases dec with
          | pending => simp [RecvResponse.poll] at h
          | failure e => simp [RecvResponse.poll] at h
          | ok hdr =>
              rcases hb : build_response hdr with e | resp
              · simp [RecvResponse.poll, hb] at h
              · cases rcv with
                | none => simp [RecvResponse.poll, hb] at h
                | some fs => simp [RecvResponse.poll, hb]
  | cons e rest ih =>
      intro st dec r b h
      rcases st with ⟨state, rcv⟩
      cases state with
      | Receiving fs =>
          cases e with
          | pending => simp [RecvResponse.poll] at h
          | endOfStream => simp [RecvResponse.poll] at h
          | failure er => simp [RecvResponse.poll] at h
          | frame f =>
              cases f with
              | reserved =>
                  simp only [RecvResponse.poll] at h ⊢
                  exact ih _ _ _ _ h
              | headers hd =>
                  simp only [RecvResponse.poll] at h ⊢
                  exact ih _ _ _ _ h
              | data p => simp [RecvResponse.poll] at h
              | other t => simp [RecvResponse.poll] at h
      | Finished => simp [RecvResponse.poll] at h
      | Decoding d =>
          cases dec with
          | pending => simp [RecvResponse.poll] at h
          | failure e' => simp [RecvResponse.poll] at h
          | ok hdr =>
              rcases hb : build_response hdr with e' | resp
              · simp [RecvResponse.poll, hb] at h
              · cases rcv with
                | none => simp [RecvResponse.poll, hb] at h
                | some fs => simp [RecvResponse.poll, hb]

/-- Helper: any poll that fails with the peer error "first frame is not
headers" leaves the machine in `Finished`. -/
theorem poll_not_headers_is_finished (evs : List StreamPoll) :
    ∀ (st : RecvResponse) (dec : DecodePoll),
      (RecvResponse.poll st evs dec).out = .failed (.peer "first frame is not headers") →
      (RecvResponse.poll st evs dec).st.state = .Finished := by
  induction evs with
  | nil =>
      intro st dec h
      rcases st with ⟨state, rcv⟩
      cases state with
      | Receiving fs => simp [RecvResponse.poll] at h
      | Finished => simp [RecvResponse.poll] at h
      | Decoding d =>
          cases dec with
          | pending => simp [RecvResponse.poll] at h
          | failure e => simp [RecvResponse.poll] at h
          | ok hdr =>
              rcases hdr with ⟨parts⟩
              cases parts with
              | none => simp [RecvResponse.poll, build_response] at h
              | some pr =>
                  cases rcv with
                  | none => simp [RecvResponse.poll, build_response]
                  | some fs => simp [RecvResponse.poll, build_response] at h
  | cons e rest ih =>
      intro st dec h
      rcases st with ⟨state, rcv⟩
      cases state with
      | Receiving fs =>
          cases e with
          | pending => simp [RecvResponse.poll] at h
          | endOfStream => simp [RecvResponse.poll] at h
          | failure er => simp [RecvResponse.poll] at h
          | frame f =>
              cases f with
              | reserved =>
                  simp only [RecvResponse.poll] at h ⊢
                  exact ih _ _ h
              | headers hd =>
                  simp only [RecvResponse.poll] at h ⊢
                  exact ih _ _ h
              | data p => simp [RecvResponse.poll]
              | other t => simp [RecvResponse.poll]
      | Finished => simp [RecvResponse.poll] at h
      | Decoding d =>
          cases dec with
          | pending => simp [RecvResponse.poll] at h
          | failure e' => simp [RecvResponse.poll] at h
          | ok hdr =>
              rcases hdr with ⟨parts⟩
              cases parts with
              | none => simp [RecvResponse.poll, build_response] at h
              | some pr =>
                  cases rcv with
                  | none => simp [RecvResponse.poll, build_response]
                  | some fs => simp [RecvResponse.poll, build_response] at h

end H3Client

namespace H3Client

/-- Helper: when the machine is not in `Receiving`, a poll never consumes
stream events, so the event list is irrelevant. -/
theorem poll_ignores_evs_nonreceiving (st : RecvResponse) (evs : List StreamPoll)
    (dec : DecodePoll) (h : ∀ fs, st.state ≠ .Receiving fs) :
    RecvResponse.poll st evs dec = RecvResponse.poll st [] dec := by
  rcases st with ⟨state, rcv⟩
  cases state with
  | Receiving fs => exact absurd rfl (h fs)
  | Decoding d => cases evs <;> rfl
  | Finished => cases evs <;> rfl

/-- Helper: ownership bookkeeping of one poll from a `Decoding` or
`Finished` state: no panic, the invariant is preserved, and the stream
owners are conserved across the state, the outcome, and the resets. -/
theorem poll_ownership_nonreceiving (st : RecvResponse) (evs : List StreamPoll)
    (dec : DecodePoll) (hwf : st.WF) (h : ∀ fs, st.state ≠ .Receiving fs) :
    (RecvResponse.poll st evs dec).out ≠ .panic
    ∧ (RecvResponse.poll st evs dec).st.WF
    ∧ (RecvResponse.poll st evs dec).st.owners
        ++ (RecvResponse.poll st evs dec).out.owner
        ++ ((RecvResponse.poll st evs dec).resets.map Prod.fst)
      = st.owners := by
  rw [poll_ignores_evs_nonreceiving st evs dec h]
  rcases st with ⟨state, rcv⟩
  cases state with
  | Receiving fs => exact absurd rfl (h fs)
  | Finished =>
      simp only [RecvResponse.WF] at hwf
      subst hwf
      simp [RecvResponse.poll, RecvResponse.WF, RecvResponse.owners,
        RecvResponseState.owner, PollOut.owner]
  | Decoding d =>
      simp only [RecvResponse.WF] at hwf
      cases rcv with
      | none => simp at hwf
      | some fs =>
          cases dec with
          | pending =>
              simp [RecvResponse.poll, RecvResponse.WF, RecvResponse.owners,
                RecvResponseState.owner, PollOut.owner]
          | failure e =>
              simp [RecvResponse.poll, RecvResponse.WF, RecvResponse.owners,
                RecvResponseState.owner, PollOut.owner]
          | ok hdr =>
              rcases hdr with ⟨parts⟩
              cases parts with
              | none =>
                  simp [RecvResponse.poll, build_response, RecvResponse.WF,
                    RecvResponse.owners, RecvResponseState.owner, PollOut.owner]
              | some pr =>
                  simp [RecvResponse.poll, build_response, RecvResponse.WF,
                    RecvResponse.owners, RecvResponseState.owner, PollOut.owner]

/-- Helper: ownership bookkeeping of one poll from any well-formed state:
no panic, the invariant is preserved, and the stream owners are conserved
across the state left behind, the outcome, and the resets issued. -/
theorem poll_ownership (evs : List StreamPoll) :
    ∀ (st : RecvResponse) (dec : DecodePoll), st.WF →
      (RecvResponse.poll st evs dec).out ≠ .panic
      ∧ (RecvResponse.poll st evs dec).st.WF
      ∧ (RecvResponse.poll st evs dec).st.owners
          ++ (RecvResponse.poll st evs dec).out.owner
          ++ ((RecvResponse.poll st evs dec).resets.map Prod.fst)
        = st.owners := by
  induction evs with
  | nil =>
      intro st dec hwf
      rcases hst : st.state with fs | d | _
      · rcases st with ⟨state, rcv⟩
        cases hst
        simp only [RecvResponse.WF] at hwf
        subst hwf
        simp [RecvResponse.poll, RecvResponse.WF, RecvResponse.owners,
          RecvResponseState.owner, PollOut.owner]
      · exact poll_ownership_nonreceiving st [] dec hwf (by simp [hst])
      · exact poll_ownership_nonreceiving st [] dec hwf (by simp [hst])
  | cons e rest ih =>
      intro st dec hwf
      rcases hst : st.state with fs | d | _
      · rcases st with ⟨state, rcv⟩
        cases hst
        simp only [RecvResponse.WF] at hwf
        subst hwf
        cases e with
        | pending =>
            simp [RecvResponse.poll, RecvResponse.WF, RecvResponse.owners,
              RecvResponseState.owner, PollOut.owner]
        | endOfStream =>
            simp [RecvResponse.poll, RecvResponse.WF, RecvResponse.owners,
              RecvResponseState.owner, PollOut.owner]
        | failure er =>
            simp [RecvResponse.poll, RecvResponse.WF, RecvResponse.owners,
              RecvResponseState.owner, PollOut.owner]
        | frame f =>
            cases f with
            | reserved =>
                simp only [RecvResponse.poll]
                exact ih _ _ (by simp [RecvResponse.WF])
            | headers hd =>
                simp only [RecvResponse.poll]
                have h' := poll_ownership_nonreceiving
                  ⟨.Decoding ⟨hd⟩, some fs⟩ rest dec (by simp [RecvResponse.WF])
                  (fun fs' hc => by cases hc)
                simpa [RecvResponse.owners, RecvResponseState.owner] using h'
            | data p =>
                simp [RecvResponse.poll, RecvResponse.WF, RecvResponse.owners,
                  RecvResponseState.owner, PollOut.owner]
            | other t =>
                simp [RecvResponse.poll, RecvResponse.WF, RecvResponse.owners,
                  RecvResponseState.owner, PollOut.owner]
      · exact poll_ownership_nonreceiving st (e :: rest) dec hwf (by simp [hst])
      · exact poll_ownership_nonreceiving st (e :: rest) dec hwf (by simp [hst])

end H3Client

namespace H3Client

/-- Claim C1 (counterexample): a poll failing with the peer error
"received an empty response" returns `Ready` yet leaves the machine in
`Receiving`, and the next poll repeats that peer error instead of the
internal error "recv response polled after finish" — so not every
Ready-returning poll leaves the machine in `Finished`. -/
theorem recv_response_ready_then_internal_cex :
    ((RecvResponse.poll (RecvResponse.new ⟨0⟩) [.endOfStream] .pending).out
        = .failed (.peer "received an empty response"))
    ∧ ((RecvResponse.poll (RecvResponse.new ⟨0⟩) [.endOfStream] .pending).st.state
        ≠ .Finished)
    ∧ ((RecvResponse.poll
          (RecvResponse.poll (RecvResponse.new ⟨0⟩) [.endOfStream] .pending).st
          [.endOfStream] .pending).out
        ≠ .failed (.internal "recv response polled after finish")) := by
  decide

/-- Claim C1 (amended): a poll that resolves with a response, or that fails
with the peer error "first frame is not headers", leaves the state machine
in `Finished`; and once `Finished`, every poll fails with
`Error::Internal("recv response polled after finish")` and stays
`Finished`. (Ready-returning polls on the other failure paths do not move
the machine to `Finished`.) -/
theorem recv_response_finished_sink (st : RecvResponse) (evs : List StreamPoll)
    (dec : DecodePoll) :
    (st.state = .Finished →
      RecvResponse.poll st evs dec =
        ⟨st, .failed (.internal "recv response polled after finish"), []⟩)
    ∧ (∀ r b, (RecvResponse.poll st evs dec).out = .resolved r b →
        (RecvResponse.poll st evs dec).st.state = .Finished)
    ∧ ((RecvResponse.poll st evs dec).out
          = .failed (.peer "first frame is not headers") →
        (RecvResponse.poll st evs dec).st.state = .Finished) := by
  refine ⟨?_, fun r b h => poll_resolved_is_finished evs st dec r b h,
    fun h => poll_not_headers_is_finished evs st dec h⟩
  intro hf
  rcases st with ⟨state, rcv⟩
  cases hf
  exact poll_in_finished rcv evs dec

/-- Closed witness for `recv_response_finished_sink`. -/
theorem recv_response_finished_sink_witness :
    RecvResponse.poll ⟨.Finished, none⟩ [] .pending =
      ⟨⟨.Finished, none⟩, .failed (.internal "recv response polled after finish"), []⟩ :=
  (recv_response_finished_sink ⟨.Finished, none⟩ [] .pending).1 rfl

/-- Claim C2: in `Receiving`, when the next decoded frame is neither
`HEADERS` nor reserved, the poll resets the stream with `FRAME_UNEXPECTED`,
fails with the peer error "first frame is not headers", and the machine
becomes `Finished`. -/
theorem recv_response_unexpected_frame (fs : FrameStream) (rcv : Option FrameStream)
    (f : HttpFrame) (rest : List StreamPoll) (dec : DecodePoll)
    (hf : f.isCatchAll = true) :
    RecvResponse.poll ⟨.Receiving fs, rcv⟩ (.frame f :: rest) dec =
      ⟨⟨.Finished, rcv⟩, .failed (.peer "first frame is not headers"),
        [(fs.id, .FRAME_UNEXPECTED)]⟩ := by
  cases f <;> simp [HttpFrame.isCatchAll] at hf <;> simp [RecvResponse.poll]

/-- Closed witness for `recv_response_unexpected_frame`. -/
theorem recv_response_unexpected_frame_witness :
    RecvResponse.poll ⟨.Receiving ⟨7⟩, none⟩ [.frame (.data [1])] .pending =
      ⟨⟨.Finished, none⟩, .failed (.peer "first frame is not headers"),
        [(7, .FRAME_UNEXPECTED)]⟩ :=
  recv_response_unexpected_frame ⟨7⟩ none (.data [1]) [] .pending rfl

/-- Claim C3 (counterexample): on an empty response stream the poll fails
with the peer error "received an empty response" but the machine does NOT
transition to `Finished` — it stays in `Receiving`. -/
theorem recv_response_empty_finish_cex :
    ((RecvResponse.poll (RecvResponse.new ⟨0⟩) [.endOfStream] .pending).out
        = .failed (.peer "received an empty response"))
    ∧ ((RecvResponse.poll (RecvResponse.new ⟨0⟩) [.endOfStream] .pending).st
        = RecvResponse.new ⟨0⟩)
    ∧ ((RecvResponse.poll (RecvResponse.new ⟨0⟩) [.endOfStream] .pending).st.state
        ≠ .Finished) := by
  decide

/-- Claim C3 (amended): in `Receiving`, when the stream ends with no frame
received, the poll fails with the peer error "received an empty response",
issues no reset, and leaves the machine unchanged in `Receiving` (it does
not transition to `Finished`). -/
theorem recv_response_empty_response (fs : FrameStream) (rcv : Option FrameStream)
    (rest : List StreamPoll) (dec : DecodePoll) :
    RecvResponse.poll ⟨.Receiving fs, rcv⟩ (.endOfStream :: rest) dec =
      ⟨⟨.Receiving fs, rcv⟩, .failed (.peer "received an empty response"), []⟩ := by
  simp [RecvResponse.poll]

/-- Claim C4: from any well-formed state (stream inside the `Receiving`
variant, or parked in the `recv` side slot exactly while `Decoding`, and
the slot empty otherwise — the shape `RecvResponse::new` establishes), a
poll never panics (in particular the `unwrap` of the side slot at
resolution succeeds), preserves well-formedness, and conserves the single
ownership of the receive half across the resulting state, the `BodyReader`
handed out, and the streams consumed by a reset. -/
theorem recv_response_single_owner (fs0 : FrameStream) (st : RecvResponse)
    (evs : List StreamPoll) (dec : DecodePoll) (hwf : st.WF) :
    (RecvResponse.new fs0).WF
    ∧ (RecvResponse.new fs0).owners = [fs0.id]
    ∧ (RecvResponse.poll st evs dec).out ≠ .panic
    ∧ (RecvResponse.poll st evs dec).st.WF
    ∧ (RecvResponse.poll st evs dec).st.owners
        ++ (RecvResponse.poll st evs dec).out.owner
        ++ ((RecvResponse.poll st evs dec).resets.map Prod.fst)
      = st.owners := by
  have h := poll_ownership evs st dec hwf
  exact ⟨rfl, rfl, h.1, h.2.1, h.2.2⟩

/-- Closed witness for `recv_response_single_owner`: a full successful run
(headers frame, then decode) never panics and hands the stream to the
`BodyReader`. -/
theorem recv_response_single_owner_witness :
    ((RecvResponse.poll (RecvResponse.new ⟨3⟩) [.frame (.headers ⟨1⟩)]
        (.ok ⟨some (200, [])⟩)).out ≠ .panic)
    ∧ ((RecvResponse.poll (RecvResponse.new ⟨3⟩) [.frame (.headers ⟨1⟩)]
        (.ok ⟨some (200, [])⟩)).st.owners
        ++ (RecvResponse.poll (RecvResponse.new ⟨3⟩) [.frame (.headers ⟨1⟩)]
            (.ok ⟨some (200, [])⟩)).out.owner
        ++ ((RecvResponse.poll (RecvResponse.new ⟨3⟩) [.frame (.headers ⟨1⟩)]
            (.ok ⟨some (200, [])⟩)).resets.map Prod.fst)
      = (RecvResponse.new ⟨3⟩).owners) :=
  ⟨(recv_response_single_owner ⟨3⟩ (RecvResponse.new ⟨3⟩) [.frame (.headers ⟨1⟩)]
      (.ok ⟨some (200, [])⟩) rfl).2.2.1,
   (recv_response_single_owner ⟨3⟩ (RecvResponse.new ⟨3⟩) [.frame (.headers ⟨1⟩)]
      (.ok ⟨some (200, [])⟩) rfl).2.2.2.2⟩

/-- Claim C8: `cancel` issues a `REQUEST_CANCELLED` reset of the receive
half exactly when the machine is still `Receiving`; in `Decoding` and
`Finished` it issues nothing. -/
theorem recv_response_cancel_iff (st : RecvResponse) :
    (∀ fs, st.state = .Receiving fs →
      st.cancel = [(fs.id, ErrorCode.REQUEST_CANCELLED)])
    ∧ ((∀ fs, st.state ≠ .Receiving fs) → st.cancel = []) := by
  rcases st with ⟨state, rcv⟩
  constructor
  · intro fs h
    cases h
    rfl
  · intro h
    cases state with
    | Receiving fs => exact absurd rfl (h fs)
    | Decoding d => rfl
    | Finished => rfl

/-- Closed witness for `recv_response_cancel_iff`. -/
theorem recv_response_cancel_iff_witness :
    ((RecvResponse.mk (.Receiving ⟨5⟩) none).cancel
        = [(5, ErrorCode.REQUEST_CANCELLED)])
    ∧ ((RecvResponse.mk .Finished none).cancel = []) :=
  ⟨(recv_response_cancel_iff ⟨.Receiving ⟨5⟩, none⟩).1 ⟨5⟩ rfl,
   (recv_response_cancel_iff ⟨.Finished, none⟩).2 (fun _ h => nomatch h)⟩

end H3Client

namespace H3Client

/-- Claim C5: the frames `send_request` writes to the fresh request stream
are nothing at all (a collaborator failed before the headers went out),
exactly one `HEADERS` frame, or that one `HEADERS` frame immediately
followed by one `DATA` frame — the latter only when the body is a single
buffer. In particular the stream never sees a `DATA` frame before the
`HEADERS` frame and never sees a second `HEADERS` frame. -/
theorem send_request_frame_order (env : SendEnv) (req : RequestParts) (body : Body) :
    (send_request env req body).1 = []
    ∨ (send_request env req body).1 = [.headers req]
    ∨ (∃ p, body = .buf p
        ∧ (send_request env req body).1 = [.headers req, .data p]) := by
  rcases env with ⟨o, hs, d⟩
  cases o <;> cases hs <;> cases d <;> cases body <;> simp [send_request]

/-- Claim C9 (counterexample): a `Client` obtained from the default
`Builder` can dial through `connect_with` with a caller-supplied config
whose ALPN list is empty, so that connection does not carry the HTTP/3
ALPN identifier — callers can override the ALPN after all. -/
theorem builder_alpn_override_cex :
    ((Builder.default.build.2.connect_with ⟨[], []⟩).config.alpn_protocols = [])
    ∧ (ALPN ∉ (Builder.default.build.2.connect_with ⟨[], []⟩).config.alpn_protocols) := by
  decide

/-- Claim C9 (amended): every configuration produced through the `Builder`
carries exactly the HTTP/3 ALPN identifier — `default` and
`with_quic_config` force the protocol list to `[ALPN]` and the other
builder operations leave it untouched — and `connect` dials with that
configuration; but `connect_with` dials with the caller-supplied
configuration verbatim, so a caller can override the ALPN per
connection. -/
theorem builder_alpn_forced (cc : ClientConfigBuilder) (b : Builder)
    (s : Settings) (cert : Nat) (cfg : ClientConfig) :
    (Builder.default.client_config.alpn_protocols = [ALPN])
    ∧ ((Builder.with_quic_config cc).client_config.alpn_protocols = [ALPN])
    ∧ ((b.set_settings s).client_config = b.client_config)
    ∧ ((b.add_certificate_authority cert).client_config.alpn_protocols
        = b.client_config.alpn_protocols)
    ∧ ((b.build.2.connect).config.alpn_protocols
        = b.client_config.alpn_protocols)
    ∧ ((b.build.2.connect_with cfg).config = cfg) :=
  ⟨rfl, rfl, rfl, rfl, rfl, rfl⟩

end H3Client

namespace RustlsCrypto

/-- Claim C6: when the rustls engine rejects handshake input,
`read_handshake` fails with `TransportErrorCode::crypto(alert_u8)` when the
engine holds an alert, and with `PROTOCOL_VIOLATION` carrying the engine's
reason string otherwise. The embedding is a total function, mirroring that
the source maps every engine failure to a `TransportError` rather than
panicking. -/
theorem read_handshake_error_mapping (s : TlsSession) (msg : String)
    (hmsg : s.rustls.read_hs_result = some msg) :
    (∀ alert, s.rustls.alert = some alert →
      read_handshake s = .error ⟨.crypto (alert % 256), none, msg⟩)
    ∧ (s.rustls.alert = none →
      read_handshake s =
        .error (TransportError.protocolViolation ("TLS error: " ++ msg))) := by
  constructor
  · intro alert halert
    simp [read_handshake, hmsg, halert]
  · intro halert
    simp [read_handshake, hmsg, halert]

/-- Closed witness for `read_handshake_error_mapping`. -/
theorem read_handshake_error_mapping_witness :
    (read_handshake (TlsSession.Client ⟨some "bad", some 40, none, none⟩)
        = .error ⟨.crypto 40, none, "bad"⟩)
    ∧ (read_handshake (TlsSession.Server ⟨some "bad", none, none, none⟩)
        = .error (TransportError.protocolViolation ("TLS error: " ++ "bad"))) :=
  ⟨(read_handshake_error_mapping (TlsSession.Client ⟨some "bad", some 40, none, none⟩)
      "bad" rfl).1 40 rfl,
   (read_handshake_error_mapping (TlsSession.Server ⟨some "bad", none, none, none⟩)
      "bad" rfl).2 rfl⟩

/-- Claim C7: `update_keys` HKDF-expands both traffic secrets with the
label "quic ku" under the HKDF algorithm matched to the negotiated hash,
and the direction mapping round-trips: feeding the local secret in as the
TLS client secret on a client (respectively the TLS server secret on a
server) and rebuilding via `Crypto::new` for the same side makes the fresh
local secret the expansion of the old local secret and the fresh remote
secret the expansion of the old remote secret, on either side. -/
theorem update_keys_derivation (s : TlsSession) (keys : Crypto)
    (suite : CipherSuite) (alg : HkdfAlgorithm)
    (hs : s.rustls.suite = some suite) (ha : hkdfAlgFor suite.hash = some alg) :
    update_keys s keys =
      some { side := s.side, alg := suite.aead,
             local_secret := hkdf_expand keys.local_secret "quic ku" alg,
             remote_secret := hkdf_expand keys.remote_secret "quic ku" alg } := by
  cases s <;>
    simp_all [update_keys, update_secrets, TlsSession.rustls, TlsSession.side,
      Crypto.new, hkdf_expand]

/-- Closed witness for `update_keys_derivation`, on both sides. -/
theorem update_keys_derivation_witness :
    (update_keys (TlsSession.Client ⟨none, none, none, some ⟨⟨1⟩, .SHA256⟩⟩)
        ⟨.Client, ⟨1⟩, .secret 10, .secret 20⟩
      = some ⟨.Client, ⟨1⟩, .expanded (.secret 10) "quic ku" .HKDF_SHA256,
          .expanded (.secret 20) "quic ku" .HKDF_SHA256⟩)
    ∧ (update_keys (TlsSession.Server ⟨none, none, none, some ⟨⟨1⟩, .SHA384⟩⟩)
        ⟨.Server, ⟨1⟩, .secret 10, .secret 20⟩
      = some ⟨.Server, ⟨1⟩, .expanded (.secret 10) "quic ku" .HKDF_SHA384,
          .expanded (.secret 20) "quic ku" .HKDF_SHA384⟩) :=
  ⟨update_keys_derivation (TlsSession.Client ⟨none, none, none, some ⟨⟨1⟩, .SHA256⟩⟩)
      ⟨.Client, ⟨1⟩, .secret 10, .secret 20⟩ ⟨⟨1⟩, .SHA256⟩ .HKDF_SHA256 rfl rfl,
   update_keys_derivation (TlsSession.Server ⟨none, none, none, some ⟨⟨1⟩, .SHA384⟩⟩)
      ⟨.Server, ⟨1⟩, .secret 10, .secret 20⟩ ⟨⟨1⟩, .SHA384⟩ .HKDF_SHA384 rfl rfl⟩

/-- Claim C10: given the rustls guarantee that a cached early secret comes
with a negotiated resumption suite, `early_crypto` returns `None` exactly
when no early secret is available, and otherwise returns keys whose local
and remote secrets are both that one early secret — 0-RTT protection is
symmetric across directions and the session's side does not gate the
result (the statement holds for client and server sessions alike). -/
theorem early_crypto_symmetric (s : TlsSession)
    (hsuite : s.rustls.early_secret.isSome = true → s.rustls.suite.isSome = true) :
    (early_crypto s = .ok none ↔ s.rustls.early_secret = none)
    ∧ (∀ secret suite, s.rustls.early_secret = some secret →
        s.rustls.suite = some suite →
        early_crypto s = .ok (some (Crypto.new s.side suite.aead secret secret))
        ∧ (Crypto.new s.side suite.aead secret secret).local_secret = secret
        ∧ (Crypto.new s.side suite.aead secret secret).remote_secret = secret) := by
  rcases hes : s.rustls.early_secret with _ | secret
  · refine ⟨⟨fun _ => rfl, fun _ => by simp [early_crypto, hes]⟩, ?_⟩
    intro secret suite h1 _h2
    exact Option.noConfusion h1
  · have hs' : s.rustls.suite.isSome = true := hsuite (by simp [hes])
    rcases hsu : s.rustls.suite with _ | suite0
    · rw [hsu] at hs'
      simp at hs'
    · constructor
      · constructor
        · intro h
          simp [early_crypto, hes, hsu] at h
        · intro h
          exact Option.noConfusion h
      · intro secret' suite' h1 h2
        cases h1
        cases h2
        refine ⟨by simp [early_crypto, hes, hsu], ?_, ?_⟩ <;>
          cases hsd : s.side <;> simp [Crypto.new, hsd]

/-- Closed witness for `early_crypto_symmetric`: a server session with a
cached early secret yields symmetric keys; a client session without one
yields `None`. -/
theorem early_crypto_symmetric_witness :
    (early_crypto (TlsSession.Server ⟨none, none, some (.secret 9), some ⟨⟨2⟩, .SHA384⟩⟩)
      = .ok (some ⟨.Server, ⟨2⟩, .secret 9, .secret 9⟩))
    ∧ (early_crypto (TlsSession.Client ⟨none, none, none, none⟩) = .ok none) :=
  ⟨((early_crypto_symmetric
      (TlsSession.Server ⟨none, none, some (.secret 9), some ⟨⟨2⟩, .SHA384⟩⟩)
      (fun _ => rfl)).2 (.secret 9) ⟨⟨2⟩, .SHA384⟩ rfl rfl).1,
   (early_crypto_symmetric (TlsSession.Client ⟨none, none, none, none⟩)
      (fun h => h)).1.mpr rfl⟩

end RustlsCrypto
